import Mathlib

/-!
Shallow embedding of the two Python source files of the repository:

* `cc_pseudo_crawl/finalise.py` — shard consolidation: sequential id
  assignment over the concatenation of input shards, construction of the
  canonical url index (keeping, per url, the entry with the greatest
  `(fetch_time, id)` pair), and rewriting of `external_urls` into
  `external_ids`.

* `ac_dc/visualization/visualization.py` — the threshold-based admission
  filter: per-rule conditions (`get_cond`), their conjunction
  (`np.all(all_conds, axis=0)`), per-rule discard reporting
  (`print_discared_by_cond`), lexicon hot-swapping for the stopwords and
  flagged-words ratios, the precomputed repetitions-ratio table, and the
  single-document probe (`analyse_personal_doc`).

Numeric signal values and thresholds are embedded as rationals; machine
floats play no role in any claim settled here.  The `Filtering.compute_*`
functions live in `ac_dc/filtering.py`, which is not part of this
repository snapshot; their outputs are therefore passed to the embedded
code as explicit parameters, exactly where the visualization code consumes
them.  The display-only rounding to three decimals in the probe is not
modelled; at the inputs considered it is the identity.
-/

/-- A record of the pseudo-crawl dataset handled by `finalise.py`.  The
`id` and `external_ids` fields start in whatever state the input shards
carry them; the pipeline overwrites them. -/
structure CrawlRecord where
  id : Nat
  url : String
  fetch_time : Nat
  external_urls : List String
  external_ids : List Nat
deriving DecidableEq

/-- Python `max(a, b)` on two 2-tuples: lexicographic comparison, returning
the second argument exactly when it is strictly greater. -/
def max_pair (a b : Nat × Nat) : Nat × Nat :=
  if a.1 < b.1 ∨ (a.1 = b.1 ∧ a.2 < b.2) then b else a

/-- The dictionary `url_to_id_and_timestamp` of `compute_external_ids_`,
mapping a url to the stored `(id, fetch_time)` entry. -/
abbrev UrlIndex := String → Option (Nat × Nat)

/-- Merging one record into the entry stored for its url, as in the first
loop of `compute_external_ids_`: a fresh url stores `(id, fetch_time)`; an
indexed url stores the swap of `max((fetch_time, id), (old_ts, old_id))`. -/
def index_merge (o : Option (Nat × Nat)) (r : CrawlRecord) : Option (Nat × Nat) :=
  match o with
  | none => some (r.id, r.fetch_time)
  | some (old_id, old_time_stamp) =>
      some ((max_pair (r.fetch_time, r.id) (old_time_stamp, old_id)).2,
            (max_pair (r.fetch_time, r.id) (old_time_stamp, old_id)).1)

/-- One iteration of the first loop of `compute_external_ids_`, updating
the dictionary at the record's url and leaving every other url alone. -/
def index_insert (m : UrlIndex) (r : CrawlRecord) : UrlIndex := fun u =>
  if u = r.url then index_merge (m r.url) r else m u

/-- The first loop of `compute_external_ids_`: fold every record of the
dataset into the (initially empty) url dictionary. -/
def url_to_id_and_timestamp (ds : List CrawlRecord) : UrlIndex :=
  ds.foldl index_insert fun _ => none

/-- The whole of `compute_external_ids_`: build the url index, then rewrite
each record's `external_ids` as the ids of its resolvable `external_urls`,
omitting the urls that are not indexed. -/
def compute_external_ids_ (ds : List CrawlRecord) : List CrawlRecord :=
  let idx := url_to_id_and_timestamp ds
  ds.map fun r =>
    { r with external_ids := r.external_urls.filterMap fun u => (idx u).map Prod.fst }

/-- The function `assign_id` composed with `ds.map(..., with_indices=True)`:
every record's `id` becomes its 0-based position in the dataset. -/
def assign_id (ds : List CrawlRecord) : List CrawlRecord :=
  ds.mapIdx fun i r => { r with id := i }

/-- The `concatenate_datasets` call of `main`: shards are concatenated in
their given relative order. -/
def concatenate_datasets (shards : List (List CrawlRecord)) : List CrawlRecord :=
  shards.flatten

/-- The dataset-processing part of `main` in `finalise.py`: concatenate,
assign positional ids, compute external ids. -/
def finalise_main (shards : List (List CrawlRecord)) : List CrawlRecord :=
  compute_external_ids_ (assign_id (concatenate_datasets shards))

/-- The canonical url index produced by running the pipeline on a shard
sequence. -/
def canonical_index (shards : List (List CrawlRecord)) : UrlIndex :=
  url_to_id_and_timestamp (assign_id (concatenate_datasets shards))

/-- Projection of the canonical index to the url → id mapping. -/
def url_to_id (shards : List (List CrawlRecord)) (u : String) : Option Nat :=
  (canonical_index shards u).map Prod.fst

/-- The `external_ids` list computed for record `r` against dataset `ds` by
the second loop of `compute_external_ids_`. -/
def resolved_external_ids (ds : List CrawlRecord) (r : CrawlRecord) : List Nat :=
  r.external_urls.filterMap fun u => (url_to_id_and_timestamp ds u).map Prod.fst

/-- The resolvable entries of `r.external_urls` paired with the canonical id
each resolves to, in order. -/
def resolved_pairs (ds : List CrawlRecord) (r : CrawlRecord) : List (String × Nat) :=
  r.external_urls.filterMap fun u =>
    (url_to_id_and_timestamp ds u).map fun p => (u, p.1)

/-- The function `get_args` of `finalise.py`.  Command-line tokenisation
(argparse and its comma-splitting `type` lambda) is an external
collaborator, so the already-split list of dataset names is the input
here; the embedded part is the assertion
`args.dataset not in args.datasets_to_concatenate`, a failure being
`none`. -/
def get_args (dataset : String) (datasets_to_concatenate : List String) :
    Option (String × List String) :=
  if dataset ∈ datasets_to_concatenate then none
  else some (dataset, datasets_to_concatenate)

/-- The function `main` of `finalise.py` with dataset loading abstracted as
a function from names to records: `get_args` runs first, and an assertion
failure stops the run before anything is loaded or produced. -/
def main_finalise (dataset : String) (datasets_to_concatenate : List String)
    (load_dataset : String → List CrawlRecord) : Option (List CrawlRecord) :=
  match get_args dataset datasets_to_concatenate with
  | none => none
  | some (_, names) => some (finalise_main (names.map load_dataset))

/-- The signal columns handled by `set_sliders` in `visualization.py`. -/
inductive SignalName where
  | number_words
  | repetitions_ratio
  | special_characters_ratio
  | stopwords_ratio
  | flagged_words_ratio
  | lang_id_score
  | perplexity_score
deriving DecidableEq

/-- One row of `self.docs`: the document text plus its per-signal metrics
as loaded by `open_data`.  The `repetitions_ratio` field is the
precomputed table n-gram length → ratio that each document's JSON carries
(the code reads `self.docs["repetitions_ratio"].iloc[i][repetitions_length]`). -/
structure VizDoc where
  text : String
  number_words : ℚ
  repetitions_ratio : Nat → ℚ
  special_characters_ratio : ℚ
  stopwords_ratio : ℚ
  flagged_words_ratio : ℚ
  lang_id_score : ℚ
  perplexity_score : ℚ

/-- Value of a named signal column for one document, after the repetitions
column has been resolved at the selected n-gram length. -/
def signal_value (d : VizDoc) (repetitions_length : Nat) : SignalName → ℚ
  | SignalName.number_words => d.number_words
  | SignalName.repetitions_ratio => d.repetitions_ratio repetitions_length
  | SignalName.special_characters_ratio => d.special_characters_ratio
  | SignalName.stopwords_ratio => d.stopwords_ratio
  | SignalName.flagged_words_ratio => d.flagged_words_ratio
  | SignalName.lang_id_score => d.lang_id_score
  | SignalName.perplexity_score => d.perplexity_score

/-- A key tuple `(column, cutoff, max_cutoff)` as appended to `keys` by
`set_sliders`. -/
structure FilterKey where
  name : SignalName
  cutoff : ℚ
  max_cutoff : Bool
deriving DecidableEq

/-- Pointwise form of `get_cond`: `value <= cutoff` under a max cutoff,
`value >= cutoff` otherwise. -/
def doc_pass (d : VizDoc) (repetitions_length : Nat) (k : FilterKey) : Bool :=
  if k.max_cutoff then decide (signal_value d repetitions_length k.name ≤ k.cutoff)
  else decide (k.cutoff ≤ signal_value d repetitions_length k.name)

/-- The function `get_cond` of `set_sliders`: the vectorised comparison of a
signal column against a cutoff, one boolean per document. -/
def get_cond (docs : List VizDoc) (repetitions_length : Nat) (k : FilterKey) : List Bool :=
  docs.map fun d => doc_pass d repetitions_length k

/-- The percentage printed by `print_discared_by_cond`:
`(len(cond) - sum(cond)) / len(cond) * 100`. -/
def print_discared_by_cond (cond : List Bool) : ℚ :=
  ((cond.length : ℚ) - (cond.count true : ℚ)) / (cond.length : ℚ) * 100

/-- The slider values of one `set_sliders` run. -/
structure Cutoffs where
  cutoff_min_number_words : ℚ
  cutoff_max_number_words : ℚ
  repetitions_length : Nat
  cutoff_repetitions_ratio : ℚ
  cutoff_special_characters_ratio : ℚ
  cutoff_stopwords_ratio : ℚ
  cutoff_flagged_words_ratio : ℚ
  cutoff_lang_id_score : ℚ
  cutoff_perplexity_score : ℚ

/-- The `keys` list built by `set_sliders`, in source order: a column
contributes its key(s) exactly when it is present in the dataframe
(`number_words` contributes a min and a max key, every other column one
key with the direction hard-coded in the source). -/
def slider_keys (present : SignalName → Bool) (c : Cutoffs) : List FilterKey :=
  (if present SignalName.number_words then
    [{ name := SignalName.number_words, cutoff := c.cutoff_min_number_words,
       max_cutoff := false },
     { name := SignalName.number_words, cutoff := c.cutoff_max_number_words,
       max_cutoff := true }]
   else [])
  ++ (if present SignalName.repetitions_ratio then
    [{ name := SignalName.repetitions_ratio, cutoff := c.cutoff_repetitions_ratio,
       max_cutoff := true }]
   else [])
  ++ (if present SignalName.special_characters_ratio then
    [{ name := SignalName.special_characters_ratio,
       cutoff := c.cutoff_special_characters_ratio, max_cutoff := true }]
   else [])
  ++ (if present SignalName.stopwords_ratio then
    [{ name := SignalName.stopwords_ratio, cutoff := c.cutoff_stopwords_ratio,
       max_cutoff := false }]
   else [])
  ++ (if present SignalName.flagged_words_ratio then
    [{ name := SignalName.flagged_words_ratio, cutoff := c.cutoff_flagged_words_ratio,
       max_cutoff := true }]
   else [])
  ++ (if present SignalName.lang_id_score then
    [{ name := SignalName.lang_id_score, cutoff := c.cutoff_lang_id_score,
       max_cutoff := false }]
   else [])
  ++ (if present SignalName.perplexity_score then
    [{ name := SignalName.perplexity_score, cutoff := c.cutoff_perplexity_score,
       max_cutoff := true }]
   else [])

/-- The combined decision vector `np.all(all_conds, axis=0)` of
`filtering_of_docs`: the pointwise conjunction of every per-key condition
array over the whole document set. -/
def filtering_all_conds (docs : List VizDoc) (present : SignalName → Bool)
    (c : Cutoffs) : List Bool :=
  ((slider_keys present c).map (get_cond docs c.repetitions_length)).foldl
    (fun acc cond => acc.zipWith (· && ·) cond) (List.replicate docs.length true)

/-- The stopwords-lexicon swap of `set_sliders`: when a stopwords file is
uploaded, the `stopwords_ratio` column is recomputed per document from the
document text with the new lexicon (the computation itself lives in the
external `filtering.py`, so it enters as a function of the text), and no
other column is written. -/
def swap_stopwords_lexicon (docs : List VizDoc)
    (compute_stopwords_ratio : String → ℚ) : List VizDoc :=
  docs.map fun d => { d with stopwords_ratio := compute_stopwords_ratio d.text }

/-- The flagged-words analogue of `swap_stopwords_lexicon`. -/
def swap_flagged_words_lexicon (docs : List VizDoc)
    (compute_flagged_words_ratio : String → ℚ) : List VizDoc :=
  docs.map fun d => { d with flagged_words_ratio := compute_flagged_words_ratio d.text }

/-- A cell of the `repetitions_ratio` dataframe column: either the loaded
per-document table (n-gram length → ratio) or, after a selection, the
scalar picked from it. -/
inductive RepEntry where
  | table (f : Nat → ℚ)
  | value (q : ℚ)

/-- The `repetitions_ratio` column as (re)built by `open_data` at the start
of every streamlit rerun: each cell holds the precomputed table from the
data file. -/
def open_data_repetitions (data : List (Nat → ℚ)) : List RepEntry :=
  data.map RepEntry.table

/-- The selection step of the repetitions expander (restore the column from
the checkpoint, then replace each cell by its table entry at the selected
length).  A cell already reduced to a scalar stays a scalar. -/
def select_repetitions_length (col : List RepEntry) (n : Nat) : List RepEntry :=
  col.map fun e =>
    match e with
    | RepEntry.table f => RepEntry.value (f n)
    | RepEntry.value q => RepEntry.value q

/-- One interactive session step: the script reruns from the top, so
`open_data` reloads the precomputed tables from the data file and the
expander then applies the current selection. -/
def rerun_with_selection (data : List (Nat → ℚ)) (n : Nat) : List RepEntry :=
  select_repetitions_length (open_data_repetitions data) n

/-- Outputs of the `Filtering.compute_*` and
`ModifyingDocuments.get_words_from_document` calls that
`analyse_personal_doc` makes for one pasted document.  These computations
live in the external `filtering.py`; the probe consumes their results. -/
structure ProbeSignals where
  number_words : ℚ
  repetitions_ratio : ℚ
  special_characters_ratio : ℚ
  stopwords_ratio : ℚ
  flagged_words_ratio : ℚ
  lang_pred_dataset_id : String
  lang_id_score : ℚ
  perplexity_score : ℚ

/-- The inner helper `is_doc_discarded` of `analyse_personal_doc`:
`score > cutoff` under a max cutoff, `score < cutoff` otherwise. -/
def is_doc_discarded (k : FilterKey) (score : ℚ) : Bool :=
  if k.max_cutoff then decide (k.cutoff < score) else decide (score < k.cutoff)

/-- One iteration of the key loop of `analyse_personal_doc`.  The state is
the Python local variable `flagged_words_ratio` (set only by the
flagged-words branch) and the accumulated `is_discarded` flag.  The
`lang_id_score` branch tests `is_doc_discarded(key, flagged_words_ratio)` —
the flagged-words variable, not the lang-id score — and additionally
discards on a predicted-label mismatch; reading the variable before any
flagged-words key has run is a Python `NameError`, embedded as `none`. -/
def analyse_step (s : ProbeSignals) (lang_dataset_id : String)
    (st : Option ℚ × Bool) (k : FilterKey) : Option (Option ℚ × Bool) :=
  match k.name with
  | SignalName.number_words =>
      some (st.1, st.2 || is_doc_discarded k s.number_words)
  | SignalName.repetitions_ratio =>
      some (st.1, st.2 || is_doc_discarded k s.repetitions_ratio)
  | SignalName.special_characters_ratio =>
      some (st.1, st.2 || is_doc_discarded k s.special_characters_ratio)
  | SignalName.stopwords_ratio =>
      some (st.1, st.2 || is_doc_discarded k s.stopwords_ratio)
  | SignalName.flagged_words_ratio =>
      some (some s.flagged_words_ratio, st.2 || is_doc_discarded k s.flagged_words_ratio)
  | SignalName.lang_id_score =>
      match st.1 with
      | none => none
      | some flagged_words_ratio =>
          some (st.1, st.2 ||
            (is_doc_discarded k flagged_words_ratio
              || decide (lang_dataset_id ≠ s.lang_pred_dataset_id)))
  | SignalName.perplexity_score =>
      some (st.1, st.2 || is_doc_discarded k s.perplexity_score)

/-- The discard decision of `analyse_personal_doc` over the session's key
list: `some b` when the loop finishes with `is_discarded = b`, `none` on
the `NameError` path. -/
def analyse_personal_doc (keys : List FilterKey) (s : ProbeSignals)
    (lang_dataset_id : String) : Option Bool :=
  (keys.foldlM (analyse_step s lang_dataset_id) ((none : Option ℚ), false)).map Prod.snd

/-- Key list for the probe divergence input: a flagged-words rule followed
by a lang-id rule, in `set_sliders` order. -/
def c1_keys : List FilterKey :=
  [{ name := SignalName.flagged_words_ratio, cutoff := 1, max_cutoff := true },
   { name := SignalName.lang_id_score, cutoff := 1, max_cutoff := false }]

/-- Probe signals for the divergence input: the flagged-words ratio passes
its rule and also sits at the lang-id cutoff, while the lang-id score is
strictly below the lang-id cutoff and the predicted label matches. -/
def c1_signals : ProbeSignals :=
  { number_words := 0, repetitions_ratio := 0, special_characters_ratio := 0,
    stopwords_ratio := 0, flagged_words_ratio := 1,
    lang_pred_dataset_id := ("en"), lang_id_score := 0, perplexity_score := 0 }

/-- The lang-id key of `c1_keys`, on its own. -/
def c1_lang_key : FilterKey :=
  { name := SignalName.lang_id_score, cutoff := 1, max_cutoff := false }

/-- A shard record for the consolidation-order counterexample. -/
def c3_shard_x : CrawlRecord :=
  { id := 0, url := ("u"), fetch_time := 0, external_urls := [], external_ids := [] }

/-- A second shard record with the same url and a later fetch time. -/
def c3_shard_y : CrawlRecord :=
  { id := 0, url := ("u"), fetch_time := 1, external_urls := [], external_ids := [] }

/-- An id-assigned record used by the fixed-id permutation witness. -/
def c3_rec_a : CrawlRecord :=
  { id := 0, url := ("a"), fetch_time := 5, external_urls := [], external_ids := [] }

/-- A second id-assigned record used by the fixed-id permutation witness. -/
def c3_rec_b : CrawlRecord :=
  { id := 1, url := ("b"), fetch_time := 7, external_urls := [], external_ids := [] }

/-- An input record that already carries an id. -/
def c4_record : CrawlRecord :=
  { id := 99, url := ("w"), fetch_time := 3, external_urls := [], external_ids := [] }

/-- Scenario record A: url u1, fetch time 10, id 0. -/
def doc_a : CrawlRecord :=
  { id := 0, url := ("u1"), fetch_time := 10, external_urls := [], external_ids := [] }

/-- Scenario record B: url u1, fetch time 20, id 1. -/
def doc_b : CrawlRecord :=
  { id := 1, url := ("u1"), fetch_time := 20, external_urls := [], external_ids := [] }

/-- Scenario record C: url u2, fetch time 5, id 2, one external url u1. -/
def doc_c : CrawlRecord :=
  { id := 2, url := ("u2"), fetch_time := 5, external_urls := [("u1")], external_ids := [] }

/-- The scenario dataset of the reference-integrity claim. -/
def ds_abc : List CrawlRecord := [doc_a, doc_b, doc_c]

/-- Column-presence function with every signal column present. -/
def all_present : SignalName → Bool := fun _ => true

/-- A concrete document for the conjunction witness. -/
def c2_doc : VizDoc :=
  { text := ("t"), number_words := 20, repetitions_ratio := fun _ => 0,
    special_characters_ratio := 0, stopwords_ratio := 1, flagged_words_ratio := 0,
    lang_id_score := 1, perplexity_score := 0 }

/-- Concrete slider values for the conjunction witness. -/
def c2_cutoffs : Cutoffs :=
  { cutoff_min_number_words := 0, cutoff_max_number_words := 500,
    repetitions_length := 10, cutoff_repetitions_ratio := 1,
    cutoff_special_characters_ratio := 1, cutoff_stopwords_ratio := 0,
    cutoff_flagged_words_ratio := 1, cutoff_lang_id_score := 0,
    cutoff_perplexity_score := 100 }

/-- A three-word document for the per-rule discard-count witness. -/
def c6_doc : VizDoc :=
  { text := ("t"), number_words := 3, repetitions_ratio := fun _ => 0,
    special_characters_ratio := 0, stopwords_ratio := 1, flagged_words_ratio := 0,
    lang_id_score := 1, perplexity_score := 0 }

/-- Slider values with a word-count min cutoff of 10 for the discard-count
witness. -/
def c6_cutoffs : Cutoffs :=
  { cutoff_min_number_words := 10, cutoff_max_number_words := 500,
    repetitions_length := 10, cutoff_repetitions_ratio := 1,
    cutoff_special_characters_ratio := 1, cutoff_stopwords_ratio := 0,
    cutoff_flagged_words_ratio := 1, cutoff_lang_id_score := 0,
    cutoff_perplexity_score := 100 }

/-- The min-word-count key of `c6_cutoffs`. -/
def c6_min_words_key : FilterKey :=
  { name := SignalName.number_words, cutoff := 10, max_cutoff := false }

/-- A concrete document for the lexicon-swap witness. -/
def c9_doc : VizDoc :=
  { text := ("the the cat"), number_words := 3, repetitions_ratio := fun _ => 0,
    special_characters_ratio := 0, stopwords_ratio := 0, flagged_words_ratio := 0,
    lang_id_score := 1, perplexity_score := 0 }

/-- A replacement ratio function standing for the external ratio computation
under an uploaded lexicon. -/
def c9_new_ratio : String → ℚ := fun _ => 1

/-- A rule on a column other than the two lexicon-dependent ones. -/
def c9_other_key : FilterKey :=
  { name := SignalName.number_words, cutoff := 10, max_cutoff := false }

/-- The `max_pair` of two tuples is one of the two tuples. -/
theorem max_pair_eq_or (a b : Nat × Nat) : max_pair a b = a ∨ max_pair a b = b := by
  unfold max_pair
  split_ifs <;> simp

/-- Python tuple `max` is commutative. -/
theorem max_pair_comm (a b : Nat × Nat) : max_pair a b = max_pair b a := by
  obtain ⟨a1, a2⟩ := a
  obtain ⟨b1, b2⟩ := b
  by_cases h1 : a1 < b1 ∨ (a1 = b1 ∧ a2 < b2) <;>
    by_cases h2 : b1 < a1 ∨ (b1 = a1 ∧ b2 < a2) <;>
      simp [max_pair, h1, h2, Prod.mk.injEq] <;> omega

/-- Python tuple `max` is left-commutative. -/
theorem max_pair_left_comm (a b c : Nat × Nat) :
    max_pair a (max_pair b c) = max_pair b (max_pair a c) := by
  obtain ⟨a1, a2⟩ := a
  obtain ⟨b1, b2⟩ := b
  obtain ⟨c1, c2⟩ := c
  simp only [max_pair]
  split_ifs <;> simp_all [Prod.mk.injEq] <;> omega

/-- Merging two records into a url entry is order-independent. -/
theorem index_merge_comm (o : Option (Nat × Nat)) (a b : CrawlRecord) :
    index_merge (index_merge o a) b = index_merge (index_merge o b) a := by
  cases o with
  | none =>
      simp only [index_merge]
      rw [max_pair_comm]
  | some p =>
      obtain ⟨i, t⟩ := p
      simp only [index_merge, Prod.mk.eta]
      rw [max_pair_left_comm]

/-- Inserting two records into the url dictionary is order-independent. -/
theorem index_insert_comm (m : UrlIndex) (a b : CrawlRecord) :
    index_insert (index_insert m a) b = index_insert (index_insert m b) a := by
  funext u
  by_cases hub : u = b.url <;> by_cases hua : u = a.url
  · have hba : b.url = a.url := hub.symm.trans hua
    simp only [index_insert, hub, hua, hba, if_pos rfl]
    exact index_merge_comm _ _ _
  · have hba : ¬ b.url = a.url := fun h => hua (hub.trans h)
    simp [index_insert, hub, hba]
  · have hab : ¬ a.url = b.url := fun h => hub (hua.trans h)
    simp [index_insert, hua, hab]
  · simp [index_insert, hua, hub]

/-- A fold by a right-commutative step function is invariant under
permutation of the list. -/
theorem foldl_comm_of_perm {α : Type} {β : Type} {f : β → α → β}
    (hf : ∀ (b : β) (a₁ a₂ : α), f (f b a₁) a₂ = f (f b a₂) a₁)
    {l₁ l₂ : List α} (p : l₁.Perm l₂) : ∀ b : β, l₁.foldl f b = l₂.foldl f b := by
  induction p with
  | nil => intro b; rfl
  | cons x _ ih => intro b; simp only [List.foldl_cons]; exact ih _
  | swap x y l => intro b; simp only [List.foldl_cons]; rw [hf]
  | trans _ _ ih₁ ih₂ => intro b; rw [ih₁ b, ih₂ b]

/-- An entry produced by `index_merge` is either the old entry or the new
record's `(id, fetch_time)`. -/
theorem index_merge_mem (o : Option (Nat × Nat)) (r : CrawlRecord) (i t : Nat)
    (h : index_merge o r = some (i, t)) :
    o = some (i, t) ∨ (i = r.id ∧ t = r.fetch_time) := by
  cases o with
  | none =>
      simp only [index_merge, Option.some.injEq, Prod.mk.injEq] at h
      exact Or.inr ⟨h.1.symm, h.2.symm⟩
  | some p =>
      obtain ⟨oi, ot⟩ := p
      simp only [index_merge, Option.some.injEq, Prod.mk.injEq] at h
      rcases max_pair_eq_or (r.fetch_time, r.id) (ot, oi) with he | he <;> rw [he] at h
      · exact Or.inr ⟨h.1.symm, h.2.symm⟩
      · exact Or.inl (by rw [← h.1, ← h.2])

/-- Every entry reachable by folding records into the dictionary comes from
the initial dictionary or from one of the folded records. -/
theorem foldl_index_mem (ds : List CrawlRecord) :
    ∀ (m : UrlIndex) (u : String) (i t : Nat),
    (ds.foldl index_insert m) u = some (i, t) →
    m u = some (i, t) ∨ ∃ r ∈ ds, r.url = u ∧ r.id = i ∧ r.fetch_time = t := by
  induction ds with
  | nil => intro m u i t h; exact Or.inl h
  | cons r ds ih =>
      intro m u i t h
      rcases ih (index_insert m r) u i t h with h' | ⟨r', hr', h1, h2, h3⟩
      · by_cases hu : u = r.url
        · subst hu
          rw [show (index_insert m r) r.url = index_merge (m r.url) r from by
            simp [index_insert]] at h'
          rcases index_merge_mem _ _ _ _ h' with hm | ⟨hi, ht⟩
          · exact Or.inl hm
          · exact Or.inr ⟨r, List.mem_cons_self r ds, rfl, hi.symm, ht.symm⟩
        · rw [show (index_insert m r) u = m u from by simp [index_insert, hu]] at h'
          exact Or.inl h'
      · exact Or.inr ⟨r', List.mem_cons_of_mem r hr', h1, h2, h3⟩

/-- Every entry of the url dictionary is the `(id, fetch_time)` of some
record of the dataset with that url. -/
theorem url_index_mem (ds : List CrawlRecord) (u : String) (i t : Nat)
    (h : url_to_id_and_timestamp ds u = some (i, t)) :
    ∃ r ∈ ds, r.url = u ∧ r.id = i ∧ r.fetch_time = t := by
  rcases foldl_index_mem ds (fun _ => none) u i t h with h' | h'
  · exact absurd h' (by simp)
  · exact h'

/-- Mapping the id projection over `assign_id` yields the position range. -/
theorem assign_id_map_id (l : List CrawlRecord) :
    (assign_id l).map CrawlRecord.id = List.range l.length := by
  unfold assign_id
  rw [List.mapIdx_eq_enum_map, List.map_map]
  rw [show (CrawlRecord.id ∘ Function.uncurry fun i r => { r with id := i })
      = (Prod.fst : Nat × CrawlRecord → Nat) from by funext p; rfl]
  exact List.enum_map_fst l

/-- Rewriting external ids leaves every record's id unchanged. -/
theorem compute_external_ids_map_id (ds : List CrawlRecord) :
    (compute_external_ids_ ds).map CrawlRecord.id = ds.map CrawlRecord.id := by
  unfold compute_external_ids_
  rw [List.map_map]
  rfl

/-- The boolean test of one key equals the claim-level pass predicate. -/
theorem doc_pass_iff (d : VizDoc) (rl : Nat) (k : FilterKey) :
    doc_pass d rl k = true ↔
      (if k.max_cutoff then signal_value d rl k.name ≤ k.cutoff
       else k.cutoff ≤ signal_value d rl k.name) := by
  cases h : k.max_cutoff <;> simp [doc_pass, h]

/-- Folding pointwise conjunction into an empty accumulator stays empty. -/
theorem zip_fold_nil {α : Type} (ks : List α) (g : α → List Bool) :
    ks.foldl (fun acc k => acc.zipWith (· && ·) (g k)) [] = [] := by
  induction ks with
  | nil => rfl
  | cons k ks ih => simpa [List.zipWith_nil_left] using ih

/-- Folding pointwise conjunction over condition lists with a common head
splits into the head conjunction and the tail fold. -/
theorem zip_fold_cons {α : Type} (ks : List α) (hf : α → Bool) (tf : α → List Bool) :
    ∀ (b : Bool) (acc : List Bool),
    ks.foldl (fun a k => a.zipWith (· && ·) (hf k :: tf k)) (b :: acc)
      = (b && ks.all hf) :: ks.foldl (fun a k => a.zipWith (· && ·) (tf k)) acc := by
  induction ks with
  | nil => intro b acc; simp
  | cons k ks ih =>
      intro b acc
      simp only [List.foldl_cons, List.zipWith_cons_cons]
      rw [ih]
      simp [List.all_cons, Bool.and_assoc]

/-- The pointwise conjunction of all per-key condition arrays computes, per
document, the conjunction of that document's per-key tests. -/
theorem zip_fold_eq (ks : List FilterKey) (rl : Nat) :
    ∀ docs : List VizDoc,
    ks.foldl (fun acc k => acc.zipWith (· && ·) (get_cond docs rl k))
        (List.replicate docs.length true)
      = docs.map fun d => ks.all fun k => doc_pass d rl k := by
  intro docs
  induction docs with
  | nil => simpa using zip_fold_nil ks (get_cond [] rl)
  | cons d docs ih =>
      show ks.foldl (fun a k => a.zipWith (· && ·) (doc_pass d rl k :: get_cond docs rl k))
          (true :: List.replicate docs.length true)
        = ((ks.all fun k => doc_pass d rl k)
            :: docs.map fun d' => ks.all fun k => doc_pass d' rl k)
      rw [zip_fold_cons]
      rw [ih]
      simp

/-- The decision vector is the per-document conjunction of all key tests. -/
theorem filtering_all_conds_eq (docs : List VizDoc) (present : SignalName → Bool)
    (c : Cutoffs) :
    filtering_all_conds docs present c
      = docs.map fun d =>
          (slider_keys present c).all fun k => doc_pass d c.repetitions_length k := by
  unfold filtering_all_conds
  rw [List.foldl_map]
  exact zip_fold_eq (slider_keys present c) c.repetitions_length docs

/-- Claim C1: in `analyse_personal_doc` the claim states that, with a
lang-id rule active, a document is discarded iff the lang-id confidence
score fails the min cutoff or the predicted label mismatches, the
flagged-words ratio playing no role.  The code instead tests the
`flagged_words_ratio` variable against the lang-id cutoff: at this input
the lang-id score 0 is strictly below the cutoff 1 (so the claim, and the
code's own slider caption, demand discarding — `is_doc_discarded` applied
to the score says so too) and the predicted label matches, yet the probe
keeps the document because the flagged-words ratio 1 passes the test that
was meant for the score. -/
theorem c1_lang_id_rule_divergence :
    analyse_personal_doc c1_keys c1_signals ("en") = some false
    ∧ is_doc_discarded c1_lang_key c1_signals.lang_id_score = true
    ∧ c1_signals.lang_id_score < c1_lang_key.cutoff := by
  refine ⟨by decide, by decide, by decide⟩

/-- Claim C2: the decision vector entry of a document is `true` exactly when
the document passes every active rule, a max-cutoff rule passing iff
`value <= threshold` and a min-cutoff rule passing iff
`value >= threshold`.  The nonemptiness hypothesis keeps the statement on
configurations the source can actually evaluate (`np.all` of an empty
condition list followed by boolean indexing does not yield a row-wise
decision). -/
theorem c2_retained_iff_passes_every_rule (docs : List VizDoc)
    (present : SignalName → Bool) (c : Cutoffs) (i : Nat) (hi : i < docs.length)
    (_hk : slider_keys present c ≠ []) :
    (filtering_all_conds docs present c)[i]? = some true ↔
      ∀ k ∈ slider_keys present c,
        (if k.max_cutoff then signal_value docs[i] c.repetitions_length k.name ≤ k.cutoff
         else k.cutoff ≤ signal_value docs[i] c.repetitions_length k.name) := by
  rw [filtering_all_conds_eq, List.getElem?_map, List.getElem?_eq_getElem hi]
  simp only [Option.map_some', Option.some.injEq]
  rw [List.all_eq_true]
  constructor
  · intro h k hk'
    exact (doc_pass_iff _ _ _).mp (h k hk')
  · intro h k hk'
    exact (doc_pass_iff _ _ _).mpr (h k hk')

/-- Witness for C2 at a concrete one-document set and concrete sliders. -/
theorem c2_witness :
    (filtering_all_conds [c2_doc] all_present c2_cutoffs)[0]? = some true :=
  (c2_retained_iff_passes_every_rule [c2_doc] all_present c2_cutoffs 0 (by decide)
    (by decide)).mpr (by decide)

/-- Claim C3 counterexample: the two shard sequences are permutations of
each other, yet the full consolidation maps the url to id 1 in one order
and to id 0 in the other, because ids are assigned positionally after
concatenation.  The canonical url-to-id index is therefore not identical
across shard permutations. -/
theorem c3_counterexample :
    ([[c3_shard_x], [c3_shard_y]] : List (List CrawlRecord)).Perm
        [[c3_shard_y], [c3_shard_x]]
    ∧ url_to_id [[c3_shard_x], [c3_shard_y]] ("u")
        ≠ url_to_id [[c3_shard_y], [c3_shard_x]] ("u") := by
  exact ⟨List.Perm.swap _ _ [], by decide⟩

/-- Claim C3 amended: once ids are fixed (the records of the concatenated,
id-assigned dataset), building the canonical index is invariant under any
permutation of the record sequence — the per-url max-by-`(fetch_time, id)`
reduction is commutative.  Determinism under permutation of the shards
themselves fails, since positional id assignment precedes the index
build. -/
theorem c3_index_perm_invariant_for_fixed_ids (l₁ l₂ : List CrawlRecord)
    (h : l₁.Perm l₂) :
    url_to_id_and_timestamp l₁ = url_to_id_and_timestamp l₂ :=
  foldl_comm_of_perm (fun m a b => index_insert_comm m a b) h _

/-- Witness for the amended C3 at a concrete two-record permutation. -/
theorem c3_witness :
    url_to_id_and_timestamp [c3_rec_a, c3_rec_b]
      = url_to_id_and_timestamp [c3_rec_b, c3_rec_a] :=
  c3_index_perm_invariant_for_fixed_ids _ _ (List.Perm.swap c3_rec_b c3_rec_a [])

/-- Claim C4 counterexample: a record arriving with id 99 does not make the
consolidation fail — the pipeline produces output and silently renumbers
the record to id 0. -/
theorem c4_counterexample :
    finalise_main [[c4_record]] = [{ c4_record with id := 0 }] := by
  decide

/-- Claim C4 amended: `assign_id` never rejects records that already carry
ids; it totally and unconditionally overwrites every id with the record's
0-based position, whatever ids the input carried. -/
theorem c4_assign_id_renumbers (l : List CrawlRecord) :
    (assign_id l).map CrawlRecord.id = List.range l.length
    ∧ (assign_id l).length = l.length := by
  refine ⟨assign_id_map_id l, ?_⟩
  have h := congrArg List.length (assign_id_map_id l)
  simpa using h

/-- Claim C5: `compute_external_ids_` rewrites each record's external ids to
exactly the resolvable external urls' canonical ids in order; every
resolved pair references a record of the dataset whose url matches; the
external-ids list is never longer than the external-urls list; and the
A/B/C scenario produces the canonical index u1 → (1, 20), u2 → (2, 5) and
`C.external_ids = [1]`. -/
theorem c5_reference_integrity :
    (∀ ds : List CrawlRecord, compute_external_ids_ ds
        = ds.map fun r => { r with external_ids := resolved_external_ids ds r })
    ∧ (∀ (ds : List CrawlRecord) (r : CrawlRecord),
        resolved_external_ids ds r = (resolved_pairs ds r).map Prod.snd)
    ∧ (∀ (ds : List CrawlRecord) (r : CrawlRecord) (p : String × Nat),
        p ∈ resolved_pairs ds r → ∃ rec ∈ ds, rec.url = p.1 ∧ rec.id = p.2)
    ∧ (∀ (ds : List CrawlRecord) (r : CrawlRecord),
        (resolved_external_ids ds r).length ≤ r.external_urls.length)
    ∧ (url_to_id_and_timestamp ds_abc ("u1") = some (1, 20)
        ∧ url_to_id_and_timestamp ds_abc ("u2") = some (2, 5)
        ∧ (compute_external_ids_ ds_abc)[2]?
            = some { doc_c with external_ids := [1] }) := by
  refine ⟨fun ds => rfl, ?_, ?_, ?_, by decide, by decide, by decide⟩
  · intro ds r
    unfold resolved_external_ids resolved_pairs
    rw [List.map_filterMap]
    congr 1
    funext u
    rw [Option.map_map]
    rfl
  · intro ds r p hp
    unfold resolved_pairs at hp
    rw [List.mem_filterMap] at hp
    obtain ⟨u, _, hf⟩ := hp
    cases hidx : url_to_id_and_timestamp ds u with
    | none => rw [hidx] at hf; simp at hf
    | some q =>
        obtain ⟨qi, qt⟩ := q
        rw [hidx] at hf
        simp only [Option.map_some', Option.some.injEq] at hf
        subst hf
        obtain ⟨rec, hrec, hurl, hid, _⟩ := url_index_mem ds u qi qt hidx
        exact ⟨rec, hrec, hurl, hid⟩
  · intro ds r
    exact List.length_filterMap_le _ _

/-- Witness for C5: record B of the scenario dataset is the record the
resolved pair of C references. -/
theorem c5_witness : ∃ rec ∈ ds_abc, rec.url = ("u1") ∧ rec.id = 1 :=
  c5_reference_integrity.2.2.1 ds_abc doc_c (("u1"), 1) (by decide)

/-- Claim C6: the quantity `print_discared_by_cond` reports for a rule is
computed from that rule's condition alone over the whole active set — the
number of `false` entries equals the count of documents failing that rule
in isolation, and the printed percentage is that isolated count over the
total, independent of every other rule's outcome. -/
theorem c6_per_rule_discard_isolation (docs : List VizDoc)
    (present : SignalName → Bool) (c : Cutoffs) (k : FilterKey)
    (_hk : k ∈ slider_keys present c) (_hd : docs ≠ []) :
    (get_cond docs c.repetitions_length k).count false
        = docs.countP (fun d => ! doc_pass d c.repetitions_length k)
    ∧ print_discared_by_cond (get_cond docs c.repetitions_length k)
        = (docs.countP (fun d => ! doc_pass d c.repetitions_length k) : ℚ)
            / (docs.length : ℚ) * 100 := by
  have hfalse : (get_cond docs c.repetitions_length k).count false
      = docs.countP (fun d => ! doc_pass d c.repetitions_length k) := by
    unfold get_cond
    rw [List.count, List.countP_map]
    apply List.countP_congr
    intro d _
    cases h : doc_pass d c.repetitions_length k <;> simp [h]
  have htrue : (get_cond docs c.repetitions_length k).count true
      = docs.countP (fun d => doc_pass d c.repetitions_length k) := by
    unfold get_cond
    rw [List.count, List.countP_map]
    apply List.countP_congr
    intro d _
    cases h : doc_pass d c.repetitions_length k <;> simp [h]
  have hsplit : docs.length = docs.countP (fun d => doc_pass d c.repetitions_length k)
      + docs.countP (fun d => ! doc_pass d c.repetitions_length k) := by
    rw [List.length_eq_countP_add_countP (fun d => doc_pass d c.repetitions_length k) docs]
    congr 1
    apply List.countP_congr
    intro d _
    cases h : doc_pass d c.repetitions_length k <;> simp [h]
  refine ⟨hfalse, ?_⟩
  unfold print_discared_by_cond
  rw [htrue]
  rw [show (get_cond docs c.repetitions_length k).length = docs.length from
    List.length_map docs _]
  have hcast : (docs.length : ℚ)
      = (docs.countP (fun d => doc_pass d c.repetitions_length k) : ℚ)
        + (docs.countP (fun d => ! doc_pass d c.repetitions_length k) : ℚ) := by
    exact_mod_cast congrArg (Nat.cast : Nat → ℚ) hsplit
  rw [hcast]
  ring

/-- Witness for C6: a three-word document under the word-count min cutoff
of 10, with every other rule configured as well. -/
theorem c6_witness :
    (get_cond [c6_doc] c6_cutoffs.repetitions_length c6_min_words_key).count false
      = [c6_doc].countP
          (fun d => ! doc_pass d c6_cutoffs.repetitions_length c6_min_words_key) :=
  (c6_per_rule_discard_isolation [c6_doc] all_present c6_cutoffs c6_min_words_key
    (by decide) (List.cons_ne_nil _ _)).1

/-- Claim C7: the repetitions ratios for every n-gram length are carried as
a precomputed per-document table; a session interaction (rerun of
`open_data` plus the expander's selection) resolves each cell to the
table's entry at the selected length by lookup alone, and two
interactions selecting different lengths both read their values from the
same untouched tables — selecting one length afresh neither recomputes
nor loses any other length's cached value. -/
theorem c7_repetitions_cache_independent (data : List (Nat → ℚ)) (n m i : Nat) :
    (rerun_with_selection data n)[i]?
        = (data[i]?).map (fun f => RepEntry.value (f n))
    ∧ (rerun_with_selection data m)[i]?
        = (data[i]?).map (fun f => RepEntry.value (f m)) := by
  constructor <;>
    · unfold rerun_with_selection select_repetitions_length open_data_repetitions
      rw [List.map_map, List.getElem?_map]
      rfl

/-- Claim C8: consolidation assigns every record the id equal to its 0-based
position in the shard concatenation; the ids survive the external-id
rewriting unchanged, so the final ids are exactly the contiguous range
`0..N-1` and in particular pairwise distinct. -/
theorem c8_sequential_positional_ids (shards : List (List CrawlRecord)) :
    (assign_id (concatenate_datasets shards)).map CrawlRecord.id
        = List.range (concatenate_datasets shards).length
    ∧ (finalise_main shards).map CrawlRecord.id
        = List.range (concatenate_datasets shards).length
    ∧ ((finalise_main shards).map CrawlRecord.id).Nodup := by
  have h2 : (finalise_main shards).map CrawlRecord.id
      = List.range (concatenate_datasets shards).length := by
    unfold finalise_main
    rw [compute_external_ids_map_id, assign_id_map_id]
  exact ⟨assign_id_map_id _, h2, h2 ▸ List.nodup_range _⟩

/-- Claim C9: uploading a replacement stopwords (resp. flagged-words)
lexicon recomputes exactly the one dependent ratio column from each
document's text, leaves every other field of every document unchanged
(the rewritten row differs from the original only in that one field), and
every rule on a different column evaluates to the same condition array
before and after the swap. -/
theorem c9_lexicon_swap_frame (docs : List VizDoc) (f g : String → ℚ) (i rl : Nat)
    (k : FilterKey) :
    ((swap_stopwords_lexicon docs f)[i]?
        = (docs[i]?).map fun d => { d with stopwords_ratio := f d.text })
    ∧ ((swap_flagged_words_lexicon docs g)[i]?
        = (docs[i]?).map fun d => { d with flagged_words_ratio := g d.text })
    ∧ (k.name ≠ SignalName.stopwords_ratio →
        get_cond (swap_stopwords_lexicon docs f) rl k = get_cond docs rl k)
    ∧ (k.name ≠ SignalName.flagged_words_ratio →
        get_cond (swap_flagged_words_lexicon docs g) rl k = get_cond docs rl k) := by
  refine ⟨List.getElem?_map _ docs i, List.getElem?_map _ docs i, ?_, ?_⟩
  · intro hk
    unfold get_cond swap_stopwords_lexicon
    rw [List.map_map]
    apply List.map_congr_left
    intro d _
    show doc_pass { d with stopwords_ratio := f d.text } rl k = doc_pass d rl k
    unfold doc_pass
    rw [show signal_value { d with stopwords_ratio := f d.text } rl k.name
        = signal_value d rl k.name from by
      cases hn : k.name
      case stopwords_ratio => exact absurd hn hk
      all_goals rfl]
  · intro hk
    unfold get_cond swap_flagged_words_lexicon
    rw [List.map_map]
    apply List.map_congr_left
    intro d _
    show doc_pass { d with flagged_words_ratio := g d.text } rl k = doc_pass d rl k
    unfold doc_pass
    rw [show signal_value { d with flagged_words_ratio := g d.text } rl k.name
        = signal_value d rl k.name from by
      cases hn : k.name
      case flagged_words_ratio => exact absurd hn hk
      all_goals rfl]

/-- Witness for C9: the word-count rule evaluates identically after a
stopwords-lexicon swap on a concrete document. -/
theorem c9_witness :
    get_cond (swap_stopwords_lexicon [c9_doc] c9_new_ratio) 10 c9_other_key
      = get_cond [c9_doc] 10 c9_other_key :=
  (c9_lexicon_swap_frame [c9_doc] c9_new_ratio c9_new_ratio 0 10 c9_other_key).2.2.1
    (by decide)

/-- Claim C10: `get_args` fails (assertion error) exactly when the output
dataset name occurs among the dataset names to concatenate, returns the
parsed arguments unchanged otherwise, and on the failing side `main`
produces nothing no matter what any dataset would load to — the check
runs before any dataset is touched. -/
theorem c10_get_args_validation (dataset : String) (names : List String)
    (load_dataset : String → List CrawlRecord) :
    (get_args dataset names = none ↔ dataset ∈ names)
    ∧ (dataset ∉ names → get_args dataset names = some (dataset, names))
    ∧ (dataset ∈ names → main_finalise dataset names load_dataset = none) := by
  refine ⟨?_, ?_, ?_⟩
  · unfold get_args
    split_ifs with h <;> simp [h]
  · intro h
    unfold get_args
    rw [if_neg h]
  · intro h
    unfold main_finalise get_args
    rw [if_pos h]

/-- Witness for C10 at concrete argument values. -/
theorem c10_witness :
    get_args ("out") [("a"), ("b")] = some (("out"), [("a"), ("b")]) :=
  (c10_get_args_validation ("out") [("a"), ("b")] (fun _ => [])).2.1 (by decide)
